import Mathlib

/-!
# Verification of the browser-commander navigation-lifecycle core

Shallow embedding, in Lean 4, of the navigation-lifecycle and
action-safety subsystem of the `browser-commander` repository
(`src/python/src/browser_commander/`), together with theorems settling
the testable properties of its specification.

Embedded components:
* `make_url_condition` and the URL-condition grammar
  (`core/page_trigger_manager.py`);
* `ActionContext` (`wait`, `cleanup`) and
  `PageTriggerManager` (`_check_triggers`, `_run_trigger`,
  `_on_url_change`);
* `NavigationManager._on_url_change` and
  `NavigationManager.wait_for_page_ready`
  (`core/navigation_manager.py`);
* `NetworkTracker` (`_on_request`, `_on_request_end`, `_check_idle`,
  `reset`, `wait_for_network_idle`) (`core/network_tracker.py`);
* the verify-with-retry loops `verify_fill` (`interactions/fill.py`) and
  `verify_navigation` (`browser/navigation.py`), and the module-level
  `wait_for_page_ready` (`browser/navigation.py`).

The Python code is single-threaded cooperative (`asyncio`): other code
runs only while a coroutine is suspended at an `await`.  Waits and
polling loops are therefore embedded as explicit recursions in which
every `await asyncio.sleep` consumes one batch of environment events
from a schedule, and wall-clock time is an explicit natural number of
milliseconds.
-/

namespace BrowserCommander

/-! ## URL-condition grammar (`make_url_condition`)

`make_url_condition` (core/page_trigger_manager.py, lines 35-79)
compiles a string pattern into a predicate on URLs:
* a pattern containing `*` becomes a regex in which every other
  character is escaped (`re.escape`) and each `*` becomes `.*`,
  matched with `search`;
* otherwise a pattern containing `:` has each `:name` segment replaced
  by the group `[^/]+` and is matched with `search`;
* otherwise the URL must equal the pattern or start with it.

The regexes produced by these two branches use only literal
characters, `.*` (from `*`) and `[^/]+` (from `:name`); in the Express
branch an unescaped `.` in the pattern stays a regex wildcard.  The
embedding compiles patterns to a list of such regex elements and
implements Python's `re.search` (match starting at any position) over
them directly.
-/

/-- One element of the compiled regexes `make_url_condition` builds:
a literal character, a `.` wildcard, `.*` (from a `*` in a wildcard
pattern), or `[^/]+` (from a `:name` segment in an Express pattern). -/
inductive RElem where
  | lit (c : Char)
  | anyChar
  | star
  | nonSlashPlus
deriving DecidableEq, Repr

/-- Does the regex match some prefix of the character list?
Backtracking matcher for the element language of `RElem`, structural on
an explicit fuel so that it evaluates inside the kernel.  Every
recursive call strictly decreases `rs.length + s.length`, so
`rs.length + s.length + 1` fuel always suffices (`rmatch` below
supplies it); the fuel-exhausted branch is unreachable. -/
def rmatchF : Nat → List RElem → List Char → Bool
  | 0, _, _ => false
  | _ + 1, [], _ => true
  | fuel + 1, .lit c :: rs, x :: xs => x = c && rmatchF fuel rs xs
  | _ + 1, .lit _ :: _, [] => false
  | fuel + 1, .anyChar :: rs, _ :: xs => rmatchF fuel rs xs
  | _ + 1, .anyChar :: _, [] => false
  | fuel + 1, .star :: rs, [] => rmatchF fuel rs []
  | fuel + 1, .star :: rs, x :: xs =>
      rmatchF fuel rs (x :: xs) || rmatchF fuel (.star :: rs) xs
  | _ + 1, .nonSlashPlus :: _, [] => false
  | fuel + 1, .nonSlashPlus :: rs, x :: xs =>
      !(x = '/') && (rmatchF fuel rs xs || rmatchF fuel (.nonSlashPlus :: rs) xs)

/-- Does the regex match some prefix of the character list? -/
def rmatch (rs : List RElem) (s : List Char) : Bool :=
  rmatchF (rs.length + s.length + 1) rs s

/-- Python `re.search`: does the regex match starting at some position
of the string? -/
def rsearch (rs : List RElem) (s : List Char) : Bool :=
  match s with
  | [] => rmatch rs []
  | _ :: xs => rmatch rs s || rsearch rs xs

/-- The wildcard branch of `make_url_condition`:
`re.escape(pattern).replace(r"\*", ".*")`.  Every character other than
`*` is escaped, hence a literal; each `*` becomes `.*`. -/
def compileWildcard (pattern : List Char) : List RElem :=
  pattern.map fun c => if c = '*' then .star else .lit c

/-- Is the character in Python's `\w` class (`[a-zA-Z0-9_]`)? -/
def isWordChar (c : Char) : Bool :=
  ('a' ≤ c && c ≤ 'z') || ('A' ≤ c && c ≤ 'Z') || ('0' ≤ c && c ≤ '9') || c = '_'

/-- The Express branch of `make_url_condition`:
`re.sub(r":(\w+)", r"(?P<\1>[^/]+)", pattern)`, then `re.compile` of the
result.  A `:` followed by at least one word character becomes the
group `[^/]+` (the word run is consumed); the remaining characters are
compiled unescaped, so `.` stays a wildcard and other characters are
literals (patterns in this repository use no further regex
metacharacters). -/
def compileExpressF : Nat → List Char → List RElem
  | 0, _ => []
  | _ + 1, [] => []
  | fuel + 1, ':' :: c :: rest =>
      if isWordChar c then
        .nonSlashPlus :: compileExpressF fuel (rest.dropWhile isWordChar)
      else
        .lit ':' :: compileExpressF fuel (c :: rest)
  | fuel + 1, '.' :: rest => .anyChar :: compileExpressF fuel rest
  | fuel + 1, c :: rest => .lit c :: compileExpressF fuel rest

/-- The Express compiler, with the always-sufficient fuel supplied
(every step above strictly shortens the remaining pattern). -/
def compileExpress (pattern : List Char) : List RElem :=
  compileExpressF (pattern.length + 1) pattern

/-- `make_url_condition` (string case), as a function of the pattern
and the URL (core/page_trigger_manager.py, lines 59-76).  The `*`
branch is tested before the `:` branch; a plain string matches by
equality or by being a prefix of the URL (`url.startswith(pattern)`). -/
def makeUrlCondition (pattern url : String) : Bool :=
  if pattern.data.contains '*' then
    rsearch (compileWildcard pattern.data) url.data
  else if pattern.data.contains ':' then
    rsearch (compileExpress pattern.data) url.data
  else
    url == pattern || pattern.data.isPrefixOf url.data

/-- `all_conditions`: logical AND of conditions. -/
def allConditions (conds : List (String → Bool)) (url : String) : Bool :=
  conds.all fun cond => cond url

/-- `any_condition`: logical OR of conditions. -/
def anyCondition (conds : List (String → Bool)) (url : String) : Bool :=
  conds.any fun cond => cond url

/-- `not_condition`: negation of a condition. -/
def notCondition (cond : String → Bool) (url : String) : Bool :=
  !cond url

/-! ## ActionContext and PageTriggerManager trigger runs

`ActionContext` (core/page_trigger_manager.py, lines 118-211) carries a
per-run `asyncio.Event` abort signal and a list of cleanup callbacks.
Exceptions are modelled by the two classes the code distinguishes:
`ActionStoppedError` and every other `Exception`. -/

/-- A Python exception, as classified by `_run_trigger`'s handlers:
an `ActionStoppedError` or any other `Exception`. -/
inductive PyExc where
  | actionStopped
  | otherError
deriving DecidableEq, Repr

/-- `ActionContext.wait(ms)` (lines 151-169): `asyncio.wait_for` races
the abort signal against the `ms` timeout.  `fireAt` is the time, in ms
after entry, at which the bound signal fires (`some 0` = already fired
at entry, `none` = never).  If the signal wins the race the code raises
`ActionStoppedError`; if the timeout wins, `asyncio.TimeoutError` is
caught and the call returns normally.  Result: outcome and elapsed ms. -/
def ActionContext.wait (fireAt : Option Nat) (ms : Nat) :
    Except PyExc Unit × Nat :=
  match fireAt with
  | some t => if t < ms then (.error .actionStopped, t) else (.ok (), ms)
  | none => (.ok (), ms)

/-- `await action(ctx)` in `_run_trigger`: the action's behaviour is a
parameter — it either returns or raises one of the two exception
classes. -/
def runAction (outcome : Option PyExc) : Except PyExc Unit :=
  match outcome with
  | none => .ok ()
  | some e => .error e

/-- Python `try/except ActionStoppedError/except Exception` around the
action body in `_run_trigger` (lines 291-296): the body's result, with
each exception class routed to its handler's result. -/
def pyTry (body onStopped onOther : Except PyExc Unit) : Except PyExc Unit :=
  match body with
  | .ok a => .ok a
  | .error .actionStopped => onStopped
  | .error .otherError => onOther

/-- `ActionContext.cleanup` (lines 203-211): every registered callback
is invoked in order, each wrapped in its own `try/except Exception:
pass`, so a raising callback (`some e`) is recorded and swallowed and
iteration continues.  Result: one (discarded) outcome per invoked
callback. -/
def ActionContext.cleanup (cbs : List (Option PyExc)) :
    List (Except PyExc Unit) :=
  cbs.map fun cb =>
    match cb with
    | none => .ok ()
    | some e => .error e

/-- Observable outcome of one `_run_trigger` call: what escapes the
call, the per-callback cleanup invocations, and the active-actions list
afterwards. -/
structure RunTriggerResult where
  propagated : Except PyExc Unit
  cleanupRuns : List (Except PyExc Unit)
  active : List Nat
deriving Repr

/-- `PageTriggerManager._run_trigger` (lines 270-300) for a context
with id `cid` whose action behaves as `outcome` and whose registered
cleanup callbacks behave as `cbs`: append the context to
`_active_actions`, run the action under the two except-handlers (both
of which only log), then — in `finally` — run `ctx.cleanup()` and
remove the context from `_active_actions` if present. -/
def PageTriggerManager.runTrigger (outcome : Option PyExc)
    (cbs : List (Option PyExc)) (active : List Nat) (cid : Nat) :
    RunTriggerResult :=
  let active1 := active ++ [cid]
  let handled := pyTry (runAction outcome) (.ok ()) (.ok ())
  let runs := ActionContext.cleanup cbs
  let active2 := if active1.contains cid then active1.erase cid else active1
  { propagated := handled, cleanupRuns := runs, active := active2 }

/-- A registered trigger: the normalized URL condition and the name.
(The action's behaviour is irrelevant to which triggers run: every
exception an action raises is swallowed by `_run_trigger`.) -/
structure Trigger where
  condition : String → Bool
  name : String

/-- `PageTriggerManager._check_triggers` (lines 259-268): walk the
registered triggers in order and, for each whose condition matches the
URL, run `_run_trigger`, which allocates a fresh `asyncio.Event` and a
fresh `ActionContext`.  Allocation is modelled by the counter
`nextCtx`; the result is the run log — `(trigger name, context id)` in
start order. -/
def PageTriggerManager.checkTriggers (triggers : List Trigger)
    (url : String) (nextCtx : Nat) : List (String × Nat) :=
  match triggers with
  | [] => []
  | t :: ts =>
      if t.condition url then
        (t.name, nextCtx) :: PageTriggerManager.checkTriggers ts url (nextCtx + 1)
      else
        PageTriggerManager.checkTriggers ts url nextCtx

/-! ## NetworkTracker (core/network_tracker.py)

The tracker's mutable state is the pending-request key set
(`_pending_requests`, keys only — the stored request objects play no
role in the idle logic), the start-time map (`_request_start_times`),
the `_idle_timer` handle (which the source only ever sets to `None`:
it is cancelled in `_on_request` and never armed), and the navigation
generation counter `_navigation_id`.

`asyncio` is cooperative: request/reset events are delivered only while
`wait_for_network_idle` is suspended in an `await asyncio.sleep`.  A
run is therefore parameterized by a schedule `σ : Nat → List NetEvent`
giving the batch of events delivered during the n-th sleep of the call;
batch events are timestamped with the sleep's end time (the waiter
observes state only at resume points). -/

/-- The state of a `NetworkTracker`. -/
structure TrackerState where
  pending : List String
  startTimes : List (String × Nat)
  idleTimer : Option Unit
  navId : Nat
deriving DecidableEq, Repr

/-- `_get_request_key`: `f"{method}:{url}"`. -/
def requestKey (method url : String) : String :=
  method ++ ":" ++ url

/-- `url.startswith("data:") or url.startswith("blob:")` (the URLs
`_on_request` ignores), computed over the character list. -/
def isDataOrBlob (url : String) : Bool :=
  "data:".data.isPrefixOf url.data || "blob:".data.isPrefixOf url.data

/-- Insert-or-overwrite into the start-time map, as Python dict
assignment does (an existing key keeps its position). -/
def updateAssoc (l : List (String × Nat)) (key : String) (v : Nat) :
    List (String × Nat) :=
  if l.any (fun p => p.1 = key) then
    l.map fun p => if p.1 = key then (key, v) else p
  else
    l ++ [(key, v)]

/-- `NetworkTracker._on_request` (lines 66-90) at time `now`: ignore
`data:`/`blob:` URLs; otherwise record the key in the pending set and
its start time, and cancel the idle timer.  (The `on_request_start`
listener fan-out carries no tracker state and is not modelled.) -/
def NetworkTracker.onRequest (now : Nat) (st : TrackerState)
    (method url : String) : TrackerState :=
  if isDataOrBlob url then st
  else
    let key := requestKey method url
    { st with
      pending := if st.pending.contains key then st.pending else st.pending ++ [key]
      startTimes := updateAssoc st.startTimes key now
      idleTimer := none }

/-- `NetworkTracker._check_idle` (lines 116-123): the immediate idle
notification fires iff the pending set is empty and no idle timer is
armed. -/
def NetworkTracker.checkIdle (st : TrackerState) : Bool :=
  st.pending.isEmpty && st.idleTimer.isNone

/-- `NetworkTracker._on_request_end` (lines 92-114): a key not in the
pending set returns immediately; otherwise the key is removed from the
pending set and the start-time map, the `on_request_end` listeners are
notified, and `_check_idle` runs.  Result: the new state, whether the
listeners were notified, and whether an idle notification fired. -/
def NetworkTracker.onRequestEnd (st : TrackerState) (method url : String) :
    TrackerState × Bool × Bool :=
  let key := requestKey method url
  if st.pending.contains key then
    let st' := { st with
      pending := st.pending.erase key
      startTimes := st.startTimes.filter fun p => !(p.1 = key) }
    (st', true, NetworkTracker.checkIdle st')
  else
    (st, false, false)

/-- `NetworkTracker.reset` (lines 251-259): bump the navigation
generation, clear the pending set and the start times. -/
def NetworkTracker.reset (st : TrackerState) : TrackerState :=
  { st with navId := st.navId + 1, pending := [], startTimes := [] }

/-- An event the environment can deliver to the tracker while the
idle waiter sleeps. -/
inductive NetEvent where
  | reqStart (method url : String)
  | reqEnd (method url : String)
  | reset
deriving DecidableEq, Repr

/-- Deliver one event to the tracker state at time `now`. -/
def applyEvent (now : Nat) (st : TrackerState) : NetEvent → TrackerState
  | .reqStart m u => NetworkTracker.onRequest now st m u
  | .reqEnd m u => (NetworkTracker.onRequestEnd st m u).1
  | .reset => NetworkTracker.reset st

/-- Deliver a batch of events in order, all timestamped `now`. -/
def applyEvents (now : Nat) (st : TrackerState) (evs : List NetEvent) :
    TrackerState :=
  evs.foldl (applyEvent now) st

/-- The stale-request purge inside `wait_for_network_idle`'s loop
(lines 207-214): every request older than `request_timeout` is removed
from the pending set (if present) and from the start-time map. -/
def NetworkTracker.purge (now rt : Nat) (st : TrackerState) : TrackerState :=
  let staleKeys := (st.startTimes.filter fun p => rt < now - p.2).map Prod.fst
  { st with
    pending := st.pending.filter fun k => !(staleKeys.contains k)
    startTimes := st.startTimes.filter fun p => !(rt < now - p.2) }

/-- Result of a `wait_for_network_idle` call: the returned boolean, the
tracker state at return, and the elapsed wall-clock ms. -/
structure IdleResult where
  ok : Bool
  st : TrackerState
  elapsed : Nat
deriving Repr

/-- The `while True` polling loop of `wait_for_network_idle`
(lines 194-225), fuel-indexed (each iteration advances the clock by at
least 100 ms, so `timeout / 100 + 1` fuel always reaches the timeout
exit; the fuel-exhausted result coincides with the timeout exit).  At
each head: return false on timeout exhaustion; return false on a
generation change; purge stale requests; if the pending set is empty,
sleep `idle_time` (one schedule batch) and return true if it is still
empty with the generation unchanged; otherwise sleep 100 ms (one more
batch) and re-poll. -/
def NetworkTracker.idleLoop (σ : Nat → List NetEvent)
    (timeout idleTime rt nav0 : Nat) :
    Nat → TrackerState → Nat → Nat → IdleResult
  | 0, st, elapsed, _ => { ok := false, st := st, elapsed := elapsed }
  | fuel + 1, st, elapsed, k =>
    if timeout ≤ elapsed then { ok := false, st := st, elapsed := elapsed }
    else if st.navId ≠ nav0 then { ok := false, st := st, elapsed := elapsed }
    else if (NetworkTracker.purge elapsed rt st).pending = [] then
      if (applyEvents (elapsed + idleTime)
            (NetworkTracker.purge elapsed rt st) (σ k)).pending = [] ∧
          (applyEvents (elapsed + idleTime)
            (NetworkTracker.purge elapsed rt st) (σ k)).navId = nav0 then
        { ok := true
          st := applyEvents (elapsed + idleTime)
            (NetworkTracker.purge elapsed rt st) (σ k)
          elapsed := elapsed + idleTime }
      else
        NetworkTracker.idleLoop σ timeout idleTime rt nav0 fuel
          (applyEvents (elapsed + idleTime + 100)
            (applyEvents (elapsed + idleTime)
              (NetworkTracker.purge elapsed rt st) (σ k))
            (σ (k + 1)))
          (elapsed + idleTime + 100) (k + 2)
    else
      NetworkTracker.idleLoop σ timeout idleTime rt nav0 fuel
        (applyEvents (elapsed + 100) (NetworkTracker.purge elapsed rt st) (σ k))
        (elapsed + 100) (k + 1)

/-- `NetworkTracker.wait_for_network_idle` (lines 164-225): capture the
navigation generation; if the pending set is empty at entry, sleep
`idle_time` once and return true if it is still empty with the
generation unchanged; otherwise enter the polling loop. -/
def NetworkTracker.waitForNetworkIdle (σ : Nat → List NetEvent)
    (timeout idleTime rt : Nat) (st0 : TrackerState) (fuel : Nat) :
    IdleResult :=
  if st0.pending = [] then
    if (applyEvents idleTime st0 (σ 0)).pending = [] ∧
        (applyEvents idleTime st0 (σ 0)).navId = st0.navId then
      { ok := true, st := applyEvents idleTime st0 (σ 0), elapsed := idleTime }
    else
      NetworkTracker.idleLoop σ timeout idleTime rt st0.navId fuel
        (applyEvents idleTime st0 (σ 0)) idleTime 1
  else
    NetworkTracker.idleLoop σ timeout idleTime rt st0.navId fuel st0 0 0

/-- The initial tracker state for the concrete idle-wait scenarios:
nothing pending, generation 0. -/
def quietTrackerState : TrackerState :=
  { pending := [], startTimes := [], idleTimer := none, navId := 0 }

/-- A schedule on which one request starts and finishes during the very
first settle sleep of an idle wait, and nothing else ever happens. -/
def blipSchedule : Nat → List NetEvent := fun k =>
  if k = 0 then
    [.reqStart "GET" "https://x/r", .reqEnd "GET" "https://x/r"]
  else
    []

/-- A tracker state with exactly one pending request, `GET
https://x/a`, started at time 0. -/
def singlePendingState : TrackerState :=
  { pending := [requestKey "GET" "https://x/a"]
    startTimes := [(requestKey "GET" "https://x/a", 0)]
    idleTimer := none
    navId := 0 }

/-! ## NavigationManager URL changes and action abort

`NavigationManager._on_url_change` (core/navigation_manager.py, lines
99-119) fires the current abort controller (`asyncio.Event.set()`) and
replaces it with a fresh `asyncio.Event`, then fans out to the
`on_url_change` listeners — among them
`PageTriggerManager._on_url_change` (core/page_trigger_manager.py,
lines 246-257), which sets the private abort `Event` of every context
in `_active_actions`.  Each `ActionContext` owns its *own* `Event`,
allocated in `_run_trigger`; allocation of Events — the manager's
generations and the contexts' — is modelled by counters.  A context's
`is_stopped()` reads its own Event's flag. -/

/-- The joint state of `NavigationManager` and `PageTriggerManager`
relevant to navigation-driven aborts.  `abortCtrl` is the manager's
current abort generation (`none` before `start_listening`);
`firedGens` records every generation whose Event has been `set()`;
`ctxStopped` has one entry per ActionContext ever created — its id and
its own Event's fired flag; `active` is `_active_actions`. -/
structure SysState where
  lastUrl : String
  abortCtrl : Option Nat
  nextGen : Nat
  firedGens : List Nat
  isNavigating : Bool
  ctxStopped : List (Nat × Bool)
  active : List Nat
  nextCtx : Nat
deriving Repr

/-- Set the abort Event of every context whose id is in `ids` (the
`for ctx in self._active_actions: ctx._abort_signal.set()` loop). -/
def setStopped (l : List (Nat × Bool)) (ids : List Nat) : List (Nat × Bool) :=
  l.map fun p => (p.1, if ids.contains p.1 then true else p.2)

/-- An operation on the joint state: `_run_trigger` creating and
registering a fresh context, `_run_trigger`'s `finally` removing a
completed context from the active list, or a URL-change event (the
manager's handler followed by the trigger manager's subscribed
handler). -/
inductive SysOp where
  | createCtx
  | completeCtx (i : Nat)
  | urlChange (u : String)

/-- Apply one operation.  `urlChange` mirrors
`NavigationManager._on_url_change`: record the new URL; if an abort
controller exists, `set()` it and allocate a fresh one; set the
NAVIGATING state; then run the subscribed
`PageTriggerManager._on_url_change`, which stops every active
context. -/
def applyOp (s : SysState) : SysOp → SysState
  | .createCtx =>
      { s with
        ctxStopped := s.ctxStopped ++ [(s.nextCtx, false)]
        active := s.active ++ [s.nextCtx]
        nextCtx := s.nextCtx + 1 }
  | .completeCtx i =>
      { s with active := if s.active.contains i then s.active.erase i else s.active }
  | .urlChange u =>
      match s.abortCtrl with
      | some g =>
          { s with
            lastUrl := u
            firedGens := s.firedGens ++ [g]
            abortCtrl := some s.nextGen
            nextGen := s.nextGen + 1
            isNavigating := true
            ctxStopped := setStopped s.ctxStopped s.active }
      | none =>
          { s with
            lastUrl := u
            isNavigating := true
            ctxStopped := setStopped s.ctxStopped s.active }

/-- The state after `start_listening`: a live abort controller
(generation 0), no contexts, nothing fired. -/
def initSysState : SysState :=
  { lastUrl := ""
    abortCtrl := some 0
    nextGen := 1
    firedGens := []
    isNavigating := false
    ctxStopped := []
    active := []
    nextCtx := 0 }

/-- Run a sequence of operations from the initial state. -/
def applyOps (ops : List SysOp) : SysState :=
  ops.foldl applyOp initSysState

/-- `ctx.is_stopped()`: the context's own abort Event flag. -/
def ctxIsStopped (s : SysState) (i : Nat) : Bool :=
  s.ctxStopped.any fun p => p.1 == i && p.2

/-! ## Verify-with-retry loops

`verify_fill` (interactions/fill.py, lines 114-161) and
`verify_navigation` (browser/navigation.py, lines 169-222) share the
polling shape: while elapsed < timeout, invoke the predicate; return
success immediately when it verifies; return failure immediately when
it reports a navigation error; otherwise sleep `retry_interval` and
retry; on budget exhaustion return the last observed result.  The
predicate is assumed prompt: the clock advances only across the
`retry_interval` sleep.  `results i` is what the `i`-th predicate
invocation returns. -/

/-- `FillVerificationResult` (interactions/fill.py, lines 24-31). -/
structure FillVerificationResult where
  verified : Bool
  actualValue : String
  navigationError : Bool := false
  attempts : Nat := 0
deriving DecidableEq, Repr

/-- `NavigationVerificationResult` (browser/navigation.py, lines
21-29). -/
structure NavigationVerificationResult where
  verified : Bool
  actualUrl : String
  reason : String
  navigationError : Bool := false
  attempts : Nat := 0
deriving DecidableEq, Repr

/-- Observable outcome of one verify-with-retry call: the returned
result, the elapsed wall-clock ms, and the number of predicate
invocations made. -/
structure VerifyRun (α : Type) where
  result : α
  elapsed : Nat
  calls : Nat
deriving DecidableEq, Repr

/-- The retry loop of `verify_fill`, fuel-indexed (each iteration that
does not return consumes one `retry_interval` sleep; the
fuel-exhausted exit coincides with the budget-exhausted exit).
`elapsed`, `calls` (predicate invocations made so far) and the Python
variables `attempts` and `last_result` are threaded explicitly. -/
def verifyFillLoop (results : Nat → FillVerificationResult)
    (timeout retryInterval : Nat) :
    Nat → Nat → Nat → Nat → FillVerificationResult →
      VerifyRun FillVerificationResult
  | 0, elapsed, calls, attempts, lastResult =>
      { result := { verified := false, actualValue := lastResult.actualValue,
                    attempts := attempts }
        elapsed := elapsed, calls := calls }
  | fuel + 1, elapsed, calls, attempts, lastResult =>
      if elapsed < timeout then
        if (results calls).verified then
          { result := { verified := true
                        actualValue := (results calls).actualValue
                        attempts := attempts + 1 }
            elapsed := elapsed, calls := calls + 1 }
        else if (results calls).navigationError then
          { result := { verified := false, actualValue := ""
                        navigationError := true, attempts := attempts + 1 }
            elapsed := elapsed, calls := calls + 1 }
        else
          verifyFillLoop results timeout retryInterval fuel
            (elapsed + retryInterval) (calls + 1) (attempts + 1) (results calls)
      else
        { result := { verified := false, actualValue := lastResult.actualValue,
                      attempts := attempts }
          elapsed := elapsed, calls := calls }

/-- `verify_fill`: the retry loop started with zero elapsed time, zero
attempts, and the initial `FillVerificationResult(verified=False,
actual_value="")`. -/
def verifyFill (results : Nat → FillVerificationResult)
    (timeout retryInterval fuel : Nat) : VerifyRun FillVerificationResult :=
  verifyFillLoop results timeout retryInterval fuel 0 0 0
    { verified := false, actualValue := "" }

/-- The retry loop of `verify_navigation`; same shape as
`verifyFillLoop`, with the early exits copying the fields of the
predicate's result (and the navigation-error exit keeping `actual_url`
and `reason` instead of blanking them, as the source does). -/
def verifyNavigationLoop (results : Nat → NavigationVerificationResult)
    (timeout retryInterval : Nat) :
    Nat → Nat → Nat → Nat → NavigationVerificationResult →
      VerifyRun NavigationVerificationResult
  | 0, elapsed, calls, attempts, lastResult =>
      { result := { verified := lastResult.verified
                    actualUrl := lastResult.actualUrl
                    reason := lastResult.reason
                    attempts := attempts }
        elapsed := elapsed, calls := calls }
  | fuel + 1, elapsed, calls, attempts, lastResult =>
      if elapsed < timeout then
        if (results calls).verified then
          { result := { verified := (results calls).verified
                        actualUrl := (results calls).actualUrl
                        reason := (results calls).reason
                        attempts := attempts + 1 }
            elapsed := elapsed, calls := calls + 1 }
        else if (results calls).navigationError then
          { result := { verified := (results calls).verified
                        actualUrl := (results calls).actualUrl
                        reason := (results calls).reason
                        navigationError := true
                        attempts := attempts + 1 }
            elapsed := elapsed, calls := calls + 1 }
        else
          verifyNavigationLoop results timeout retryInterval fuel
            (elapsed + retryInterval) (calls + 1) (attempts + 1) (results calls)
      else
        { result := { verified := lastResult.verified
                      actualUrl := lastResult.actualUrl
                      reason := lastResult.reason
                      attempts := attempts }
          elapsed := elapsed, calls := calls }

/-- `verify_navigation`: the retry loop started with zero elapsed time,
zero attempts, and the initial `NavigationVerificationResult(
verified=False, actual_url="", reason="")`. -/
def verifyNavigation (results : Nat → NavigationVerificationResult)
    (timeout retryInterval fuel : Nat) :
    VerifyRun NavigationVerificationResult :=
  verifyNavigationLoop results timeout retryInterval fuel 0 0 0
    { verified := false, actualUrl := "", reason := "" }

/-! ## wait_for_page_ready

`NavigationManager.wait_for_page_ready` (core/navigation_manager.py,
lines 198-237) and the module-level `wait_for_page_ready`
(browser/navigation.py, lines 520-580).  The attached tracker's
`wait_for_network_idle` is abstracted as an oracle mapping the
remaining timeout budget to (idle-result, elapsed ms). -/

/-- Observable outcome of `NavigationManager.wait_for_page_ready`: the
returned boolean, the `_is_navigating` flag afterwards, whether the
`on_page_ready` listeners fired, and the wall-clock ms the call
consumed. -/
structure NavPageReadyResult where
  ok : Bool
  isNavigating : Bool
  pageReadyFired : Bool
  waitedMs : Nat
deriving DecidableEq, Repr

/-- `NavigationManager.wait_for_page_ready`: if a NetworkTracker is
attached and the remaining budget (the whole `timeout`, as no time has
passed at the check) is positive, await its `wait_for_network_idle` and
return false on failure, leaving the NAVIGATING flag as it was and not
firing `on_page_ready`; in every other case — idle achieved, budget
non-positive, or no tracker attached — clear `_is_navigating`, fire the
`on_page_ready` listeners, and return true.  The no-tracker path
performs no wait of any kind. -/
def NavigationManager.waitForPageReady (tracker : Option (Nat → Bool × Nat))
    (timeout : Nat) (navigating : Bool) : NavPageReadyResult :=
  match tracker with
  | some t =>
      if 0 < timeout then
        if (t timeout).1 then
          { ok := true, isNavigating := false, pageReadyFired := true
            waitedMs := (t timeout).2 }
        else
          { ok := false, isNavigating := navigating, pageReadyFired := false
            waitedMs := (t timeout).2 }
      else
        { ok := true, isNavigating := false, pageReadyFired := true
          waitedMs := 0 }
  | none =>
      { ok := true, isNavigating := false, pageReadyFired := true
        waitedMs := 0 }

/-- The module-level `wait_for_page_ready`: delegate to the
NavigationManager when given one (modelled by its tracker and
navigating flag); otherwise use a NetworkTracker directly
(`wait_for_network_idle(timeout, 2000)`); otherwise the minimal
fallback — a fixed 1000 ms settle sleep, then true.  Result: returned
boolean and consumed wall-clock ms. -/
def waitForPageReadyModule
    (navigationManager : Option (Option (Nat → Bool × Nat) × Bool))
    (networkTracker : Option (Nat → Bool × Nat)) (timeout : Nat) :
    Bool × Nat :=
  match navigationManager with
  | some (tracker, navigating) =>
      ((NavigationManager.waitForPageReady tracker timeout navigating).ok,
       (NavigationManager.waitForPageReady tracker timeout navigating).waitedMs)
  | none =>
      match networkTracker with
      | some t => t timeout
      | none => (true, 1000)

/-! ## Theorems -/

/-- C6: `ActionContext.wait(ms)` with `ms > 0` raises
`ActionStoppedError` iff the bound abort signal fires strictly before
`ms` elapses (in particular when it is already fired at entry); a raise
happens without waiting out the full duration, and when the signal does
not fire within `ms` the call returns normally after the
full duration. -/
theorem ActionContext_wait_races_abort (fireAt : Option Nat) (ms : Nat)
    (_hms : 0 < ms) :
    ((ActionContext.wait fireAt ms).1 = .error .actionStopped ↔
      ∃ t, fireAt = some t ∧ t < ms) ∧
    ((ActionContext.wait fireAt ms).1 = .error .actionStopped →
      (ActionContext.wait fireAt ms).2 < ms) ∧
    ((ActionContext.wait fireAt ms).1 = .ok () →
      (ActionContext.wait fireAt ms).2 = ms) := by
  match fireAt with
  | none => simp [ActionContext.wait]
  | some t =>
      by_cases ht : t < ms
      · simp [ActionContext.wait, ht]
      · simp [ActionContext.wait, ht]

/-- Witness for `ActionContext_wait_races_abort`: a signal that fires
150 ms into a 10000 ms wait makes the call raise after 150 ms. -/
theorem ActionContext_wait_races_abort_witness :
    (0 < 10000) ∧
    ((ActionContext.wait (some 150) 10000).1 = .error .actionStopped ↔
      ∃ t, some 150 = some t ∧ t < 10000) ∧
    ((ActionContext.wait (some 150) 10000).1 = .error .actionStopped →
      (ActionContext.wait (some 150) 10000).2 < 10000) ∧
    ((ActionContext.wait (some 150) 10000).1 = .ok () →
      (ActionContext.wait (some 150) 10000).2 = 10000) :=
  ⟨by decide, ActionContext_wait_races_abort (some 150) 10000 (by decide)⟩

/-- C7: `_run_trigger` never lets an exception out — neither
`ActionStoppedError` nor any other exception from the action
propagates; in every termination path all of the context's cleanup
callbacks are invoked (one recorded invocation per registered callback,
raising callbacks swallowed); and the context is removed from the
active-actions list (which, when it was not previously registered, is
restored exactly). -/
theorem runTrigger_swallows_and_cleans (outcome : Option PyExc)
    (cbs : List (Option PyExc)) (active : List Nat) (cid : Nat) :
    (PageTriggerManager.runTrigger outcome cbs active cid).propagated = .ok () ∧
    (PageTriggerManager.runTrigger outcome cbs active cid).cleanupRuns.length
      = cbs.length ∧
    (cid ∉ active →
      (PageTriggerManager.runTrigger outcome cbs active cid).active = active) := by
  refine ⟨?_, ?_, ?_⟩
  · match outcome with
    | none => rfl
    | some .actionStopped => rfl
    | some .otherError => rfl
  · simp [PageTriggerManager.runTrigger, ActionContext.cleanup]
  · intro hmem
    have hc : (active ++ [cid]).contains cid = true := by simp
    simp only [PageTriggerManager.runTrigger, hc, if_true]
    rw [List.erase_append_right _ (by simpa using hmem)]
    simp

/-- Witness for `runTrigger_swallows_and_cleans`: a trigger action that
raises a non-stop exception, with one failing and one succeeding
cleanup callback, starting from active contexts `[7]`. -/
theorem runTrigger_swallows_and_cleans_witness :
    (PageTriggerManager.runTrigger (some .otherError)
        [some .otherError, none] [7] 3).propagated = .ok () ∧
    (PageTriggerManager.runTrigger (some .otherError)
        [some .otherError, none] [7] 3).cleanupRuns.length
      = [some PyExc.otherError, none].length ∧
    ((3 : Nat) ∉ [(7 : Nat)] →
      (PageTriggerManager.runTrigger (some .otherError)
        [some .otherError, none] [7] 3).active = [7]) :=
  runTrigger_swallows_and_cleans (some .otherError) [some .otherError, none] [7] 3

/-- C3: for registered triggers and a URL, `_check_triggers` starts
exactly the matching triggers' actions — every matching trigger, in
registration order — and each run receives its own freshly allocated
context: the logged context ids are the consecutive fresh ids, hence
pairwise distinct. -/
theorem checkTriggers_runs_every_match (triggers : List Trigger)
    (url : String) (nextCtx : Nat) :
    (PageTriggerManager.checkTriggers triggers url nextCtx).map Prod.fst =
      (triggers.filter (fun t => t.condition url)).map Trigger.name ∧
    (PageTriggerManager.checkTriggers triggers url nextCtx).length =
      (triggers.filter (fun t => t.condition url)).length ∧
    (PageTriggerManager.checkTriggers triggers url nextCtx).map Prod.snd =
      List.range' nextCtx (triggers.filter (fun t => t.condition url)).length ∧
    ((PageTriggerManager.checkTriggers triggers url nextCtx).map Prod.snd).Nodup := by
  induction triggers generalizing nextCtx with
  | nil => simp [PageTriggerManager.checkTriggers]
  | cons t ts ih =>
      by_cases hc : t.condition url
      · obtain ⟨ih1, ih2, ih3, _⟩ := ih (nextCtx + 1)
        refine ⟨?_, ?_, ?_, ?_⟩
        · simp [PageTriggerManager.checkTriggers, hc, List.filter_cons, ih1]
        · simp [PageTriggerManager.checkTriggers, hc, List.filter_cons, ih2]
        · simp [PageTriggerManager.checkTriggers, hc, List.filter_cons, ih3,
            List.range'_succ]
        · simp only [PageTriggerManager.checkTriggers, hc, if_true,
            List.map_cons, List.filter_cons]
          rw [ih3]
          have : nextCtx :: List.range' (nextCtx + 1)
              (List.filter (fun t => t.condition url) ts).length =
              List.range' nextCtx
                ((List.filter (fun t => t.condition url) ts).length + 1) := by
            rw [List.range'_succ]
          rw [this]
          exact List.nodup_range' _ _
      · obtain ⟨ih1, ih2, ih3, ih4⟩ := ih nextCtx
        refine ⟨?_, ?_, ?_, ?_⟩
        · simp [PageTriggerManager.checkTriggers, hc, List.filter_cons, ih1]
        · simp [PageTriggerManager.checkTriggers, hc, List.filter_cons, ih2]
        · simp [PageTriggerManager.checkTriggers, hc, List.filter_cons, ih3]
        · simpa [PageTriggerManager.checkTriggers, hc] using ih4

/-- Helper: a `true` return of the polling loop comes from a settle
window: some loop head at time `e ≥ elapsed` observed the (purged)
pending set empty, slept `idle_time`, and observed the set empty again
with the generation unchanged; the result is that end-of-window state
at time `e + idle_time`. -/
theorem idleLoop_ok_sound (σ : Nat → List NetEvent) (τ ι rt nav0 : Nat) :
    ∀ fuel st elapsed k res,
      NetworkTracker.idleLoop σ τ ι rt nav0 fuel st elapsed k = res →
      res.ok = true →
      ∃ e j stPre, stPre.pending = [] ∧ stPre.navId = nav0 ∧ elapsed ≤ e ∧
        res.st = applyEvents (e + ι) stPre (σ j) ∧ res.elapsed = e + ι ∧
        res.st.pending = [] ∧ res.st.navId = nav0 := by
  intro fuel
  induction fuel with
  | zero =>
      intro st elapsed k res hres hok
      rw [NetworkTracker.idleLoop] at hres
      subst hres
      simp at hok
  | succ fuel ih =>
      intro st elapsed k res hres hok
      rw [NetworkTracker.idleLoop] at hres
      split_ifs at hres with h1 h2 h3 h4
      · subst hres; simp at hok
      · subst hres; simp at hok
      · -- settle check passed: the loop returns true here
        subst hres
        exact ⟨elapsed, k, NetworkTracker.purge elapsed rt st, h3,
          not_not.mp h2, le_refl _, rfl, rfl, h4.1, h4.2⟩
      · -- settle check failed: recurse after the 100 ms sleep
        obtain ⟨e, j, stPre, hp, hn, hle, hst, hel, hfp, hfn⟩ :=
          ih _ _ _ _ hres hok
        exact ⟨e, j, stPre, hp, hn, by omega, hst, hel, hfp, hfn⟩
      · -- pending set non-empty: recurse after the 100 ms sleep
        obtain ⟨e, j, stPre, hp, hn, hle, hst, hel, hfp, hfn⟩ :=
          ih _ _ _ _ hres hok
        exact ⟨e, j, stPre, hp, hn, by omega, hst, hel, hfp, hfn⟩

/-- Helper: given fuel covering the timeout budget (each loop iteration
advances the clock by at least 100 ms), a `false` return of the polling
loop is caused either by timeout exhaustion or by a generation
change. -/
theorem idleLoop_false_reason (σ : Nat → List NetEvent) (τ ι rt nav0 : Nat) :
    ∀ fuel st elapsed k res,
      NetworkTracker.idleLoop σ τ ι rt nav0 fuel st elapsed k = res →
      τ ≤ elapsed + 100 * fuel →
      res.ok = false →
      τ ≤ res.elapsed ∨ ¬ res.st.navId = nav0 := by
  intro fuel
  induction fuel with
  | zero =>
      intro st elapsed k res hres hfuel hok
      rw [NetworkTracker.idleLoop] at hres
      subst hres
      left
      simpa using hfuel
  | succ fuel ih =>
      intro st elapsed k res hres hfuel hok
      rw [NetworkTracker.idleLoop] at hres
      split_ifs at hres with h1 h2 h3 h4
      · subst hres; left; exact h1
      · subst hres; right; exact h2
      · subst hres; simp at hok
      · exact ih _ _ _ _ hres (by omega) hok
      · exact ih _ _ _ _ hres (by omega) hok

/-- C5 counterexample: `NavigationManager.wait_for_page_ready` with no
NetworkTracker attached performs *no* delay at all: it returns true
immediately (0 ms consumed), clearing NAVIGATING and firing
`on_page_ready`.  This refutes the claim that with no tracker the call
performs a best-effort fixed delay before returning — that fixed delay
(1000 ms) exists only in the module-level `wait_for_page_ready`
fallback when neither a NavigationManager nor a NetworkTracker is
provided. -/
theorem navWaitForPageReady_no_tracker_counterexample :
    NavigationManager.waitForPageReady none 30000 true
      = { ok := true, isNavigating := false, pageReadyFired := true
          waitedMs := 0 } ∧
    waitForPageReadyModule none none 30000 = (true, 1000) := by
  exact ⟨rfl, rfl⟩

/-- C5 amended: with a NetworkTracker attached and a positive timeout,
`NavigationManager.wait_for_page_ready` delegates idle detection to the
tracker and returns false on idle-wait failure (leaving the NAVIGATING
flag untouched and not firing `on_page_ready`); with no tracker it
returns true immediately with no delay (the best-effort fixed delay
lives in the module-level `wait_for_page_ready` when neither a manager
nor a tracker is provided); and on every successful return it clears
the NAVIGATING state and fires the `on_page_ready` listeners before
returning true. -/
theorem waitForPageReady_spec (t : Nat → Bool × Nat) (timeout : Nat)
    (navigating : Bool) :
    (0 < timeout →
      ((t timeout).1 = false →
        NavigationManager.waitForPageReady (some t) timeout navigating
          = { ok := false, isNavigating := navigating, pageReadyFired := false
              waitedMs := (t timeout).2 }) ∧
      ((t timeout).1 = true →
        NavigationManager.waitForPageReady (some t) timeout navigating
          = { ok := true, isNavigating := false, pageReadyFired := true
              waitedMs := (t timeout).2 })) ∧
    (NavigationManager.waitForPageReady none timeout navigating
      = { ok := true, isNavigating := false, pageReadyFired := true
          waitedMs := 0 }) ∧
    (∀ tr : Option (Nat → Bool × Nat),
      (NavigationManager.waitForPageReady tr timeout navigating).ok = true →
        (NavigationManager.waitForPageReady tr timeout
            navigating).isNavigating = false ∧
        (NavigationManager.waitForPageReady tr timeout
            navigating).pageReadyFired = true) ∧
    (waitForPageReadyModule none none timeout = (true, 1000)) := by
  refine ⟨?_, rfl, ?_, rfl⟩
  · intro ht
    constructor
    · intro hidle
      simp [NavigationManager.waitForPageReady, ht, hidle]
    · intro hidle
      simp [NavigationManager.waitForPageReady, ht, hidle]
  · intro tr hok
    match tr with
    | none => exact ⟨rfl, rfl⟩
    | some t' =>
        by_cases ht : 0 < timeout
        · by_cases hidle : (t' timeout).1 = true
          · simp [NavigationManager.waitForPageReady, ht, hidle]
          · exfalso
            simp [NavigationManager.waitForPageReady, ht, hidle] at hok
        · simp [NavigationManager.waitForPageReady, ht]

/-- Witness for `waitForPageReady_spec`: a tracker whose idle wait
fails after 12000 ms makes the call return false, leaving the
NAVIGATING flag set and `on_page_ready` unfired. -/
theorem waitForPageReady_spec_witness :
    NavigationManager.waitForPageReady (some fun _ => (false, 12000)) 30000 true
      = { ok := false, isNavigating := true, pageReadyFired := false
          waitedMs := 12000 } :=
  ((waitForPageReady_spec (fun _ => (false, 12000)) 30000 true).1
    (by decide)).1 rfl

/-- Helper: the fill retry loop never returns later than
`timeout + retry_interval` (an iteration is entered only with
`elapsed < timeout` and adds one `retry_interval` sleep). -/
theorem verifyFillLoop_elapsed_le (results : Nat → FillVerificationResult)
    (timeout ri : Nat) :
    ∀ fuel elapsed calls attempts last,
      elapsed ≤ timeout + ri →
      (verifyFillLoop results timeout ri fuel elapsed calls attempts
        last).elapsed ≤ timeout + ri := by
  intro fuel
  induction fuel with
  | zero => intro e c a l he; simpa [verifyFillLoop] using he
  | succ fuel ih =>
      intro e c a l he
      rw [verifyFillLoop]
      split_ifs with h1 h2 h3
      · exact he
      · exact he
      · exact ih _ _ _ _ (by omega)
      · exact he

/-- Helper: the fill retry loop's reported `attempts` equals the number
of predicate invocations it makes. -/
theorem verifyFillLoop_attempts_eq_calls
    (results : Nat → FillVerificationResult) (timeout ri : Nat) :
    ∀ fuel elapsed calls attempts last,
      attempts = calls →
      (verifyFillLoop results timeout ri fuel elapsed calls attempts
        last).result.attempts
        = (verifyFillLoop results timeout ri fuel elapsed calls attempts
            last).calls := by
  intro fuel
  induction fuel with
  | zero => intro e c a l hac; simpa [verifyFillLoop] using hac
  | succ fuel ih =>
      intro e c a l hac
      rw [verifyFillLoop]
      split_ifs with h1 h2 h3
      · simpa using hac
      · simpa using hac
      · exact ih _ _ _ _ (by omega)
      · simpa using hac

/-- Helper: if the first `i` predicate invocations are indecisive and
the `i`-th is reachable within the budget, the fill retry loop returns
at the `i`-th invocation, immediately — success if it verified, tagged
failure if it reported a navigation error — with `i + 1` attempts. -/
theorem verifyFillLoop_first_hit (results : Nat → FillVerificationResult)
    (timeout ri : Nat) :
    ∀ i fuel elapsed calls attempts last,
      i < fuel →
      elapsed + i * ri < timeout →
      (∀ j, j < i → (results (calls + j)).verified = false ∧
        (results (calls + j)).navigationError = false) →
      ((results (calls + i)).verified = true →
        verifyFillLoop results timeout ri fuel elapsed calls attempts last
          = { result := { verified := true
                          actualValue := (results (calls + i)).actualValue
                          attempts := attempts + i + 1 }
              elapsed := elapsed + i * ri, calls := calls + i + 1 }) ∧
      ((results (calls + i)).verified = false →
        (results (calls + i)).navigationError = true →
        verifyFillLoop results timeout ri fuel elapsed calls attempts last
          = { result := { verified := false, actualValue := ""
                          navigationError := true, attempts := attempts + i + 1 }
              elapsed := elapsed + i * ri, calls := calls + i + 1 }) := by
  intro i
  induction i with
  | zero =>
      intro fuel e c a l hfuel he _
      cases fuel with
      | zero => exact absurd hfuel (by omega)
      | succ f =>
          have he' : e < timeout := by simpa using he
          simp only [Nat.add_zero, Nat.zero_mul]
          constructor
          · intro hv
            rw [verifyFillLoop, if_pos he', if_pos hv]
          · intro hnv hne
            rw [verifyFillLoop, if_pos he', if_neg (by simp [hnv]), if_pos hne]
  | succ i ih =>
      intro fuel e c a l hfuel he hj
      cases fuel with
      | zero => exact absurd hfuel (by omega)
      | succ f =>
          have he0 : e < timeout := lt_of_le_of_lt (Nat.le_add_right e _) he
          have h0 := hj 0 (Nat.succ_pos i)
          simp only [Nat.add_zero] at h0
          have harith : e + (i + 1) * ri = e + ri + i * ri := by ring
          have henext : (e + ri) + i * ri < timeout := by
            rw [← harith]; exact he
          have hjnext : ∀ j, j < i →
              (results (c + 1 + j)).verified = false ∧
              (results (c + 1 + j)).navigationError = false := by
            intro j hjlt
            have hres := hj (j + 1) (by omega)
            have hidx : c + (j + 1) = c + 1 + j := by ring
            rwa [hidx] at hres
          have hidx : c + (i + 1) = c + 1 + i := by ring
          have e1 : a + (i + 1) + 1 = a + 1 + i + 1 := by omega
          have ihres := ih f (e + ri) (c + 1) (a + 1) (results c)
            (by omega) henext hjnext
          constructor
          · intro hv
            rw [hidx] at hv
            rw [hidx, harith, e1,
              verifyFillLoop, if_pos he0, if_neg (by simp [h0.1]),
              if_neg (by simp [h0.2])]
            exact ihres.1 hv
          · intro hnv hne
            rw [hidx] at hnv hne
            rw [hidx, harith, e1,
              verifyFillLoop, if_pos he0, if_neg (by simp [h0.1]),
              if_neg (by simp [h0.2])]
            exact ihres.2 hnv hne

/-- Helper: the navigation retry loop never returns later than
`timeout + retry_interval`. -/
theorem verifyNavigationLoop_elapsed_le
    (results : Nat → NavigationVerificationResult) (timeout ri : Nat) :
    ∀ fuel elapsed calls attempts last,
      elapsed ≤ timeout + ri →
      (verifyNavigationLoop results timeout ri fuel elapsed calls attempts
        last).elapsed ≤ timeout + ri := by
  intro fuel
  induction fuel with
  | zero => intro e c a l he; simpa [verifyNavigationLoop] using he
  | succ fuel ih =>
      intro e c a l he
      rw [verifyNavigationLoop]
      split_ifs with h1 h2 h3
      · exact he
      · exact he
      · exact ih _ _ _ _ (by omega)
      · exact he

/-- Helper: the navigation retry loop's reported `attempts` equals the
number of predicate invocations it makes. -/
theorem verifyNavigationLoop_attempts_eq_calls
    (results : Nat → NavigationVerificationResult) (timeout ri : Nat) :
    ∀ fuel elapsed calls attempts last,
      attempts = calls →
      (verifyNavigationLoop results timeout ri fuel elapsed calls attempts
        last).result.attempts
        = (verifyNavigationLoop results timeout ri fuel elapsed calls attempts
            last).calls := by
  intro fuel
  induction fuel with
  | zero => intro e c a l hac; simpa [verifyNavigationLoop] using hac
  | succ fuel ih =>
      intro e c a l hac
      rw [verifyNavigationLoop]
      split_ifs with h1 h2 h3
      · simpa using hac
      · simpa using hac
      · exact ih _ _ _ _ (by omega)
      · simpa using hac

/-- Helper: if the first `i` predicate invocations are indecisive and
the `i`-th is reachable within the budget, the navigation retry loop
returns at the `i`-th invocation, immediately, with `i + 1`
attempts. -/
theorem verifyNavigationLoop_first_hit
    (results : Nat → NavigationVerificationResult) (timeout ri : Nat) :
    ∀ i fuel elapsed calls attempts last,
      i < fuel →
      elapsed + i * ri < timeout →
      (∀ j, j < i → (results (calls + j)).verified = false ∧
        (results (calls + j)).navigationError = false) →
      ((results (calls + i)).verified = true →
        verifyNavigationLoop results timeout ri fuel elapsed calls attempts last
          = { result := { verified := (results (calls + i)).verified
                          actualUrl := (results (calls + i)).actualUrl
                          reason := (results (calls + i)).reason
                          attempts := attempts + i + 1 }
              elapsed := elapsed + i * ri, calls := calls + i + 1 }) ∧
      ((results (calls + i)).verified = false →
        (results (calls + i)).navigationError = true →
        verifyNavigationLoop results timeout ri fuel elapsed calls attempts last
          = { result := { verified := (results (calls + i)).verified
                          actualUrl := (results (calls + i)).actualUrl
                          reason := (results (calls + i)).reason
                          navigationError := true
                          attempts := attempts + i + 1 }
              elapsed := elapsed + i * ri, calls := calls + i + 1 }) := by
  intro i
  induction i with
  | zero =>
      intro fuel e c a l hfuel he _
      cases fuel with
      | zero => exact absurd hfuel (by omega)
      | succ f =>
          have he' : e < timeout := by simpa using he
          simp only [Nat.add_zero, Nat.zero_mul]
          constructor
          · intro hv
            rw [verifyNavigationLoop, if_pos he', if_pos hv]
          · intro hnv hne
            rw [verifyNavigationLoop, if_pos he', if_neg (by simp [hnv]),
              if_pos hne]
  | succ i ih =>
      intro fuel e c a l hfuel he hj
      cases fuel with
      | zero => exact absurd hfuel (by omega)
      | succ f =>
          have he0 : e < timeout := lt_of_le_of_lt (Nat.le_add_right e _) he
          have h0 := hj 0 (Nat.succ_pos i)
          simp only [Nat.add_zero] at h0
          have harith : e + (i + 1) * ri = e + ri + i * ri := by ring
          have henext : (e + ri) + i * ri < timeout := by
            rw [← harith]; exact he
          have hjnext : ∀ j, j < i →
              (results (c + 1 + j)).verified = false ∧
              (results (c + 1 + j)).navigationError = false := by
            intro j hjlt
            have hres := hj (j + 1) (by omega)
            have hidx : c + (j + 1) = c + 1 + j := by ring
            rwa [hidx] at hres
          have hidx : c + (i + 1) = c + 1 + i := by ring
          have e1 : a + (i + 1) + 1 = a + 1 + i + 1 := by omega
          have ihres := ih f (e + ri) (c + 1) (a + 1) (results c)
            (by omega) henext hjnext
          constructor
          · intro hv
            rw [hidx] at hv
            rw [hidx, harith, e1,
              verifyNavigationLoop, if_pos he0, if_neg (by simp [h0.1]),
              if_neg (by simp [h0.2])]
            exact ihres.1 hv
          · intro hnv hne
            rw [hidx] at hnv hne
            rw [hidx, harith, e1,
              verifyNavigationLoop, if_pos he0, if_neg (by simp [h0.1]),
              if_neg (by simp [h0.2])]
            exact ihres.2 hnv hne

/-- C4: `verify_fill` and `verify_navigation` return within
`timeout + retry_interval` wall-clock time (each predicate call
assumed prompt); the `attempts` field of the returned result equals
the number of predicate invocations made during the call; and the call
returns immediately at the first predicate result with
`verified == true` or `navigation_error == true` — the decisive
invocation is the last one made, with no retry after a navigation
error. -/
theorem verify_retry_protocol (resultsF : Nat → FillVerificationResult)
    (resultsN : Nat → NavigationVerificationResult)
    (timeout ri fuel i : Nat) :
    (verifyFill resultsF timeout ri fuel).elapsed ≤ timeout + ri ∧
    (verifyNavigation resultsN timeout ri fuel).elapsed ≤ timeout + ri ∧
    (verifyFill resultsF timeout ri fuel).result.attempts
      = (verifyFill resultsF timeout ri fuel).calls ∧
    (verifyNavigation resultsN timeout ri fuel).result.attempts
      = (verifyNavigation resultsN timeout ri fuel).calls ∧
    (i < fuel → i * ri < timeout →
      (∀ j, j < i → (resultsF j).verified = false ∧
        (resultsF j).navigationError = false) →
      ((resultsF i).verified = true →
        verifyFill resultsF timeout ri fuel
          = { result := { verified := true
                          actualValue := (resultsF i).actualValue
                          attempts := i + 1 }
              elapsed := i * ri, calls := i + 1 }) ∧
      ((resultsF i).verified = false → (resultsF i).navigationError = true →
        verifyFill resultsF timeout ri fuel
          = { result := { verified := false, actualValue := ""
                          navigationError := true, attempts := i + 1 }
              elapsed := i * ri, calls := i + 1 })) ∧
    (i < fuel → i * ri < timeout →
      (∀ j, j < i → (resultsN j).verified = false ∧
        (resultsN j).navigationError = false) →
      ((resultsN i).verified = true →
        verifyNavigation resultsN timeout ri fuel
          = { result := { verified := (resultsN i).verified
                          actualUrl := (resultsN i).actualUrl
                          reason := (resultsN i).reason
                          attempts := i + 1 }
              elapsed := i * ri, calls := i + 1 }) ∧
      ((resultsN i).verified = false → (resultsN i).navigationError = true →
        verifyNavigation resultsN timeout ri fuel
          = { result := { verified := (resultsN i).verified
                          actualUrl := (resultsN i).actualUrl
                          reason := (resultsN i).reason
                          navigationError := true
                          attempts := i + 1 }
              elapsed := i * ri, calls := i + 1 })) := by
  refine ⟨?_, ?_, ?_, ?_, ?_, ?_⟩
  · exact verifyFillLoop_elapsed_le resultsF timeout ri fuel 0 0 0 _ (by omega)
  · exact verifyNavigationLoop_elapsed_le resultsN timeout ri fuel 0 0 0 _
      (by omega)
  · exact verifyFillLoop_attempts_eq_calls resultsF timeout ri fuel 0 0 0 _ rfl
  · exact verifyNavigationLoop_attempts_eq_calls resultsN timeout ri fuel
      0 0 0 _ rfl
  · intro hif hit hj
    have hj0 : ∀ j, j < i → (resultsF (0 + j)).verified = false ∧
        (resultsF (0 + j)).navigationError = false := by
      intro j hjl
      simpa [Nat.zero_add] using hj j hjl
    have hf := verifyFillLoop_first_hit resultsF timeout ri i fuel 0 0 0
      { verified := false, actualValue := "" } hif (by simpa using hit) hj0
    simpa [verifyFill, Nat.zero_add] using hf
  · intro hif hit hj
    have hj0 : ∀ j, j < i → (resultsN (0 + j)).verified = false ∧
        (resultsN (0 + j)).navigationError = false := by
      intro j hjl
      simpa [Nat.zero_add] using hj j hjl
    have hf := verifyNavigationLoop_first_hit resultsN timeout ri i fuel 0 0 0
      { verified := false, actualUrl := "", reason := "" } hif
      (by simpa using hit) hj0
    simpa [verifyNavigation, Nat.zero_add] using hf

/-- Witness for `verify_retry_protocol`: a fill predicate that verifies
on its first invocation makes the call return at once with one attempt;
a navigation predicate that reports a navigation error on its first
invocation makes the call return at once, tagged, with one attempt. -/
theorem verify_retry_protocol_witness :
    verifyFill (fun _ => { verified := true, actualValue := "done" })
        5000 100 10
      = { result := { verified := true, actualValue := "done", attempts := 1 }
          elapsed := 0, calls := 1 } ∧
    verifyNavigation
        (fun _ =>
          { verified := false, actualUrl := "u", reason := "r",
            navigationError := true })
        5000 100 10
      = { result := { verified := false, actualUrl := "u", reason := "r",
                      navigationError := true, attempts := 1 }
          elapsed := 0, calls := 1 } := by
  constructor
  · exact ((verify_retry_protocol
      (fun _ => { verified := true, actualValue := "done" })
      (fun _ =>
        { verified := false, actualUrl := "u", reason := "r",
          navigationError := true })
      5000 100 10 0).2.2.2.2.1 (by decide) (by decide)
        (fun j hj => absurd hj (by omega))).1 rfl
  · exact ((verify_retry_protocol
      (fun _ => { verified := true, actualValue := "done" })
      (fun _ =>
        { verified := false, actualUrl := "u", reason := "r",
          navigationError := true })
      5000 100 10 0).2.2.2.2.2 (by decide) (by decide)
        (fun j hj => absurd hj (by omega))).2 rfl rfl

/-- Invariant of the abort-generation allocator: every fired generation
and the live generation are below the allocation counter. -/
def GenInv (s : SysState) : Prop :=
  (∀ g ∈ s.firedGens, g < s.nextGen) ∧
  (∀ g, s.abortCtrl = some g → g < s.nextGen)

/-- Helper: every operation preserves the generation invariant. -/
theorem genInv_applyOp (s : SysState) (op : SysOp) (h : GenInv s) :
    GenInv (applyOp s op) := by
  obtain ⟨h1, h2⟩ := h
  cases op with
  | createCtx => exact ⟨h1, h2⟩
  | completeCtx i => exact ⟨h1, h2⟩
  | urlChange u =>
      cases hctrl : s.abortCtrl with
      | none =>
          simp only [applyOp, hctrl]
          exact ⟨fun g hg => h1 g hg, fun g hg => by simp at hg⟩
      | some g =>
          constructor
          · intro g' hg'
            simp only [applyOp, hctrl] at hg' ⊢
            simp only [List.mem_append, List.mem_singleton] at hg'
            rcases hg' with hg' | rfl
            · exact Nat.lt_succ_of_lt (h1 g' hg')
            · exact Nat.lt_succ_of_lt (h2 g' hctrl)
          · intro g' hg'
            simp only [applyOp, hctrl] at hg' ⊢
            simp only [Option.some.injEq] at hg'
            omega

/-- Helper: every state reachable from `start_listening` satisfies the
generation invariant. -/
theorem genInv_applyOps (ops : List SysOp) : GenInv (applyOps ops) := by
  have hgen : ∀ (l : List SysOp) (s : SysState),
      GenInv s → GenInv (l.foldl applyOp s) := by
    intro l
    induction l with
    | nil => intro s h; exact h
    | cons op rest ih =>
        intro s h
        exact ih _ (genInv_applyOp s op h)
  refine hgen ops initSysState ⟨?_, ?_⟩
  · intro g hg; simp [initSysState] at hg
  · intro g hg
    simp only [initSysState, Option.some.injEq] at hg
    simp only [initSysState]
    omega

/-- C2 counterexample: an `ActionContext` created before a navigation
whose action already completed (and was removed from the active list)
is *not* stopped by the navigation's URL-change handler: its private
abort Event is never set, so it still reports `is_stopped() == false`
after the handler has run.  This refutes the claim that *every*
ActionContext created before the event reports `is_stopped() == true`
once the handler has run. -/
theorem urlChange_completed_ctx_counterexample :
    (applyOps [SysOp.createCtx, SysOp.completeCtx 0,
        SysOp.urlChange "https://next"]).ctxStopped = [(0, false)] ∧
    ctxIsStopped (applyOps [SysOp.createCtx, SysOp.completeCtx 0,
        SysOp.urlChange "https://next"]) 0 = false := by
  constructor
  · rfl
  · rfl

/-- C2 amended: on every URL-change event handled with a live abort
controller, exactly one abort generation is fired (appended to the
fired set) and exactly one fresh, never-before-fired generation is
allocated; every ActionContext *active* at the event reports
`is_stopped() == true` once the URL-change handler (including
PageTriggerManager's subscribed handler) has run; and a stopped context
never again observes itself as not stopped (no operation clears a
context's abort Event).  A context whose action already completed may
remain not-stopped. -/
theorem urlChange_abort_semantics (ops : List SysOp) (u : String) :
    (∀ g, (applyOps ops).abortCtrl = some g →
      (applyOp (applyOps ops) (SysOp.urlChange u)).firedGens
        = (applyOps ops).firedGens ++ [g] ∧
      (applyOp (applyOps ops) (SysOp.urlChange u)).abortCtrl
        = some (applyOps ops).nextGen ∧
      (applyOp (applyOps ops) (SysOp.urlChange u)).nextGen
        = (applyOps ops).nextGen + 1 ∧
      (applyOps ops).nextGen ∉ (applyOps ops).firedGens) ∧
    (∀ i b, (i, b) ∈ (applyOps ops).ctxStopped → i ∈ (applyOps ops).active →
      ctxIsStopped (applyOp (applyOps ops) (SysOp.urlChange u)) i = true) ∧
    (∀ op i, ctxIsStopped (applyOps ops) i = true →
      ctxIsStopped (applyOp (applyOps ops) op) i = true) := by
  obtain ⟨hinv1, hinv2⟩ := genInv_applyOps ops
  refine ⟨?_, ?_, ?_⟩
  · intro g hg
    refine ⟨?_, ?_, ?_, ?_⟩
    · simp [applyOp, hg]
    · simp [applyOp, hg]
    · simp [applyOp, hg]
    · intro hmem
      exact absurd (hinv1 _ hmem) (lt_irrefl _)
  · intro i b hmem hact
    have hcont : (applyOps ops).active.contains i = true := by simpa using hact
    have hmap : (i, true) ∈ setStopped (applyOps ops).ctxStopped (applyOps ops).active := by
      rw [setStopped]
      have hf : (fun p : Nat × Bool =>
          (p.1, if (applyOps ops).active.contains p.1 then true else p.2)) (i, b)
          = (i, true) := by
        simp [hcont, hact]
      rw [← hf]
      exact List.mem_map_of_mem _ hmem
    have hstop : ∀ l : List (Nat × Bool), (i, true) ∈ l →
        l.any (fun p => p.1 == i && p.2) = true := by
      intro l hl
      rw [List.any_eq_true]
      exact ⟨(i, true), hl, by simp⟩
    cases hctrl : (applyOps ops).abortCtrl with
    | none => simpa [ctxIsStopped, applyOp, hctrl] using hstop _ hmap
    | some g => simpa [ctxIsStopped, applyOp, hctrl] using hstop _ hmap
  · intro op i h
    rw [ctxIsStopped, List.any_eq_true] at h
    obtain ⟨p, hp, hpred⟩ := h
    simp only [Bool.and_eq_true, beq_iff_eq] at hpred
    cases op with
    | createCtx =>
        rw [ctxIsStopped, List.any_eq_true]
        exact ⟨p, by simp [applyOp, hp], by simp [hpred.1, hpred.2]⟩
    | completeCtx j =>
        rw [ctxIsStopped, List.any_eq_true]
        exact ⟨p, hp, by simp [hpred.1, hpred.2]⟩
    | urlChange u' =>
        have hmap : (p.1, if (applyOps ops).active.contains p.1 then true else p.2)
            ∈ setStopped (applyOps ops).ctxStopped (applyOps ops).active :=
          List.mem_map_of_mem _ hp
        have hpred' : (fun q : Nat × Bool => q.1 == i && q.2)
            (p.1, if (applyOps ops).active.contains p.1 then true else p.2) = true := by
          simp [hpred.1, hpred.2]
        cases hctrl : (applyOps ops).abortCtrl with
        | none =>
            rw [ctxIsStopped, List.any_eq_true]
            exact ⟨_, by simpa [applyOp, hctrl] using hmap, hpred'⟩
        | some g =>
            rw [ctxIsStopped, List.any_eq_true]
            exact ⟨_, by simpa [applyOp, hctrl] using hmap, hpred'⟩

/-- Witness for `urlChange_abort_semantics`: after creating one context
(which stays active), a URL change stops it. -/
theorem urlChange_abort_semantics_witness :
    ctxIsStopped (applyOp (applyOps [SysOp.createCtx])
      (SysOp.urlChange "https://b")) 0 = true :=
  (urlChange_abort_semantics [SysOp.createCtx] "https://b").2.1 0 false
    (by decide) (by decide)

/-- C1 counterexample: with no request pending at entry, a request that
starts **and** finishes during the very first `idle_time` settle window
does not prevent `wait_for_network_idle` from returning true at the end
of that window — yet the pending set was non-empty in the middle of the
window (after the window's first event).  This refutes the claim that
the call returns true only if the pending set is empty *continuously*
for `idle_time` ms: the code samples emptiness only at the two ends of
the settle window. -/
theorem waitForNetworkIdle_blip_counterexample :
    (NetworkTracker.waitForNetworkIdle blipSchedule 5000 200 30000
        quietTrackerState 60).ok = true ∧
    (NetworkTracker.waitForNetworkIdle blipSchedule 5000 200 30000
        quietTrackerState 60).elapsed = 200 ∧
    (applyEvent 200 quietTrackerState
        (NetEvent.reqStart "GET" "https://x/r")).pending ≠ [] := by
  refine ⟨?_, ?_, ?_⟩ <;> decide

/-- C1 amended: `wait_for_network_idle` returns true only at the end of
an `idle_time` settle window: some instant `e` at which the (purged)
pending set was observed empty with the generation unchanged, such that
after sleeping `idle_time` (during which scheduled events were
delivered) the set is observed empty again and the generation still
equals the one captured at entry — emptiness strictly inside the window
is not checked.  Every true return comes at a time `e + idle_time ≥
idle_time` after entry, so a call that finds zero pending requests at
entry still waits out the settle window.  With fuel covering the
timeout budget, every false return is caused by timeout exhaustion or
by a generation change.  And a call that finds zero pending requests at
entry with no interleaved events returns true after exactly
`idle_time`. -/
theorem waitForNetworkIdle_sampled_idle (σ : Nat → List NetEvent)
    (τ ι rt fuel : Nat) (st0 : TrackerState) :
    ((NetworkTracker.waitForNetworkIdle σ τ ι rt st0 fuel).ok = true →
      ∃ e j stPre, stPre.pending = [] ∧ stPre.navId = st0.navId ∧
        (NetworkTracker.waitForNetworkIdle σ τ ι rt st0 fuel).st
          = applyEvents (e + ι) stPre (σ j) ∧
        (NetworkTracker.waitForNetworkIdle σ τ ι rt st0 fuel).elapsed = e + ι ∧
        (NetworkTracker.waitForNetworkIdle σ τ ι rt st0 fuel).st.pending = [] ∧
        (NetworkTracker.waitForNetworkIdle σ τ ι rt st0 fuel).st.navId
          = st0.navId) ∧
    (τ ≤ 100 * fuel →
      (NetworkTracker.waitForNetworkIdle σ τ ι rt st0 fuel).ok = false →
      τ ≤ (NetworkTracker.waitForNetworkIdle σ τ ι rt st0 fuel).elapsed ∨
        ¬ (NetworkTracker.waitForNetworkIdle σ τ ι rt st0 fuel).st.navId
            = st0.navId) ∧
    ((∀ k, σ k = []) → st0.pending = [] →
      NetworkTracker.waitForNetworkIdle σ τ ι rt st0 fuel
        = { ok := true, st := st0, elapsed := ι }) := by
  have hmain : ∀ res, NetworkTracker.waitForNetworkIdle σ τ ι rt st0 fuel = res →
      (res.ok = true →
        ∃ e j stPre, stPre.pending = [] ∧ stPre.navId = st0.navId ∧
          res.st = applyEvents (e + ι) stPre (σ j) ∧ res.elapsed = e + ι ∧
          res.st.pending = [] ∧ res.st.navId = st0.navId) ∧
      (τ ≤ 100 * fuel → res.ok = false →
        τ ≤ res.elapsed ∨ ¬ res.st.navId = st0.navId) ∧
      ((∀ k, σ k = []) → st0.pending = [] →
        res = { ok := true, st := st0, elapsed := ι }) := by
    intro res hres
    rw [NetworkTracker.waitForNetworkIdle] at hres
    split_ifs at hres with h0 h1
    · -- already idle at entry, and still idle after the settle sleep
      subst hres
      refine ⟨fun _ => ⟨0, 0, st0, h0, rfl, by simp, by simp, h1.1, h1.2⟩,
        fun _ hfalse => by simp at hfalse, fun hσ _ => ?_⟩
      have happ : applyEvents ι st0 (σ 0) = st0 := by rw [hσ 0]; rfl
      simp [happ]
    · -- the entry settle failed: fall into the polling loop
      refine ⟨fun hok => ?_, fun hfuel hfalse => ?_, fun hσ h0' => ?_⟩
      · obtain ⟨e, j, stPre, hp, hn, _, hst, hel, hfp, hfn⟩ :=
          idleLoop_ok_sound σ τ ι rt st0.navId fuel _ ι 1 res hres hok
        exact ⟨e, j, stPre, hp, hn, hst, hel, hfp, hfn⟩
      · exact idleLoop_false_reason σ τ ι rt st0.navId fuel _ ι 1 res hres
          (by omega) hfalse
      · exfalso
        apply h1
        have happ : applyEvents ι st0 (σ 0) = st0 := by rw [hσ 0]; rfl
        rw [happ]
        exact ⟨h0', rfl⟩
    · -- requests pending at entry: fall into the polling loop
      refine ⟨fun hok => ?_, fun hfuel hfalse => ?_, fun _ h0' => absurd h0' h0⟩
      · obtain ⟨e, j, stPre, hp, hn, _, hst, hel, hfp, hfn⟩ :=
          idleLoop_ok_sound σ τ ι rt st0.navId fuel _ 0 0 res hres hok
        exact ⟨e, j, stPre, hp, hn, hst, hel, hfp, hfn⟩
      · exact idleLoop_false_reason σ τ ι rt st0.navId fuel _ 0 0 res hres
          (by omega) hfalse
  exact hmain _ rfl

/-- Witness for `waitForNetworkIdle_sampled_idle`: a quiet idle wait
(nothing pending at entry, no events) returns true after exactly the
200 ms settle window. -/
theorem waitForNetworkIdle_sampled_idle_witness :
    NetworkTracker.waitForNetworkIdle (fun _ => []) 5000 200 30000
        quietTrackerState 60
      = { ok := true, st := quietTrackerState, elapsed := 200 } :=
  (waitForNetworkIdle_sampled_idle (fun _ => []) 5000 200 30000 60
    quietTrackerState).2.2 (fun _ => rfl) (by decide)

/-- C8 counterexample: a request-end event whose key is not in the
pending set is ignored entirely — `_on_request_end` returns before
notifying the `on_request_end` listeners and before the idle check,
even though the pending set is empty.  This refutes the claim that the
handler notifies listeners and fires an idle notification "including
for a request-end event whose key is not in the pending set". -/
theorem onRequestEnd_unknown_key_counterexample :
    quietTrackerState.pending.isEmpty = true ∧
    (NetworkTracker.onRequestEnd quietTrackerState "GET" "https://x/a").2.1 = false ∧
    (NetworkTracker.onRequestEnd quietTrackerState "GET" "https://x/a").2.2 = false := by
  decide

/-- C8 amended: for a request-end event whose key is in the pending
set, the handler removes the key, notifies the `on_request_end`
listeners, and fires an idle notification exactly when the pending set
is empty after the removal (and no idle timer is armed — the source
never arms one); a request-end event whose key is not in the pending
set is ignored: no removal, no listener notification, no idle check. -/
theorem onRequestEnd_known_key_only (st : TrackerState) (method url : String) :
    (st.pending.contains (requestKey method url) = true →
      (NetworkTracker.onRequestEnd st method url).1.pending
        = st.pending.erase (requestKey method url) ∧
      (NetworkTracker.onRequestEnd st method url).2.1 = true ∧
      (NetworkTracker.onRequestEnd st method url).2.2
        = ((st.pending.erase (requestKey method url)).isEmpty
            && st.idleTimer.isNone)) ∧
    (st.pending.contains (requestKey method url) = false →
      NetworkTracker.onRequestEnd st method url = (st, false, false)) := by
  constructor
  · intro hmem
    have hmem' : requestKey method url ∈ st.pending := by simpa using hmem
    simp [NetworkTracker.onRequestEnd, NetworkTracker.checkIdle, hmem']
  · intro hmem
    have hmem' : requestKey method url ∉ st.pending := by simpa using hmem
    simp [NetworkTracker.onRequestEnd, hmem']

/-- Witness for `onRequestEnd_known_key_only`: ending the single
pending request notifies the listeners and fires the idle
notification. -/
theorem onRequestEnd_known_key_only_witness :
    (NetworkTracker.onRequestEnd singlePendingState "GET" "https://x/a").1.pending
      = singlePendingState.pending.erase (requestKey "GET" "https://x/a") ∧
    (NetworkTracker.onRequestEnd singlePendingState "GET" "https://x/a").2.1 = true ∧
    (NetworkTracker.onRequestEnd singlePendingState "GET" "https://x/a").2.2
      = ((singlePendingState.pending.erase (requestKey "GET" "https://x/a")).isEmpty
          && singlePendingState.idleTimer.isNone) :=
  (onRequestEnd_known_key_only singlePendingState "GET" "https://x/a").1 (by decide)

/-- C9: the URL-condition grammar on its specified examples.
`make_url_condition("*checkout*")` matches `https://x/checkout/1`;
`make_url_condition("/vacancy/:id")` matches `https://h/vacancy/42` and
rejects `https://h/other/42`; `make_url_condition("https://a.com")`
matches `https://a.com/b` by prefix and rejects `https://b.com`. -/
theorem makeUrlCondition_spec_examples :
    makeUrlCondition "*checkout*" "https://x/checkout/1" = true ∧
    makeUrlCondition "/vacancy/:id" "https://h/vacancy/42" = true ∧
    makeUrlCondition "/vacancy/:id" "https://h/other/42" = false ∧
    makeUrlCondition "https://a.com" "https://a.com/b" = true ∧
    makeUrlCondition "https://a.com" "https://b.com" = false := by
  refine ⟨?_, ?_, ?_, ?_, ?_⟩ <;> decide

/-- C10: a pattern containing both `*` and `:` is compiled by the
wildcard rule alone (the `*` branch is tested before the `:` branch),
so each `:name` segment is an escaped literal: it matches only the
literal text `:name` in the URL, never an arbitrary `[^/]+` segment. -/
theorem makeUrlCondition_star_beats_colon :
    (∀ pattern url : String, pattern.data.contains '*' = true →
      makeUrlCondition pattern url =
        rsearch (compileWildcard pattern.data) url.data) ∧
    makeUrlCondition "/a/*/b/:id" "/a/x/b/:id" = true ∧
    makeUrlCondition "/a/*/b/:id" "/a/x/b/42" = false := by
  refine ⟨fun pattern url h => ?_, by decide, by decide⟩
  simp only [makeUrlCondition]
  rw [if_pos h]

/-- Witness for `makeUrlCondition_star_beats_colon` at the pattern
`*checkout*` (which contains `*`) and the URL `https://x/checkout/1`. -/
theorem makeUrlCondition_star_beats_colon_witness :
    ("*checkout*".data.contains '*' = true) ∧
    makeUrlCondition "*checkout*" "https://x/checkout/1" =
      rsearch (compileWildcard "*checkout*".data) "https://x/checkout/1".data := by
  exact ⟨by decide, makeUrlCondition_star_beats_colon.1 _ _ (by decide)⟩

end BrowserCommander
